import Mathlib

/-!
Shallow embedding of the paperless-ngx.ts client (src/unnamed/part_000).

The client treats request and response bodies opaquely: bodies are passed
through JSON.stringify and responses through Response.json with no shape
validation, so JSON values are modelled by an inductive type and the record
interfaces of the source are not needed for any property below.

Platform functions used by the source are modelled after their standard
semantics: Response.ok is true exactly for statuses 200-299, Response.json
parses the body text as JSON and fails on invalid input (in particular on an
empty body), JSON.stringify prints a JSON value, and the truthiness test
`body ? ... : undefined` follows JavaScript truthiness. JSON numbers are
modelled as integers; no property below depends on fractional values.
-/

/-- JSON values as exchanged with the server. -/
inductive Json where
  | null : Json
  | bool : Bool → Json
  | num : Int → Json
  | str : String → Json
  | arr : List Json → Json
  | obj : List (String × Json) → Json

/-- JavaScript truthiness of a JSON value, for `body ? ... : undefined`. -/
def jsTruthy : Json → Bool
  | Json.null => false
  | Json.bool b => b
  | Json.num n => !(n = 0)
  | Json.str s => !(s = "")
  | Json.arr _ => true
  | Json.obj _ => true

/-- Escape one character for a JSON string literal. -/
def escapeChar (c : Char) : String :=
  if c = '"' then "\\\""
  else if c = '\\' then "\\\\"
  else if c = '\n' then "\\n"
  else if c = '\t' then "\\t"
  else if c = '\r' then "\\r"
  else String.singleton c

/-- Escape a string for inclusion in JSON output. -/
def escapeString (s : String) : String :=
  String.join (s.toList.map escapeChar)

mutual

/-- JSON.stringify on the JSON value model. -/
def Json.stringify : Json → String
  | Json.null => "null"
  | Json.bool true => "true"
  | Json.bool false => "false"
  | Json.num n => toString n
  | Json.str s => "\"" ++ escapeString s ++ "\""
  | Json.arr xs => "[" ++ stringifyItems xs ++ "]"
  | Json.obj fs => "\x7b" ++ stringifyFields fs ++ "\x7d"

/-- Comma-separated serialization of array elements. -/
def stringifyItems : List Json → String
  | [] => ""
  | [x] => Json.stringify x
  | x :: y :: rest => Json.stringify x ++ "," ++ stringifyItems (y :: rest)

/-- Comma-separated serialization of object fields. -/
def stringifyFields : List (String × Json) → String
  | [] => ""
  | [(k, v)] => "\"" ++ escapeString k ++ "\":" ++ Json.stringify v
  | (k, v) :: f :: rest =>
      "\"" ++ escapeString k ++ "\":" ++ Json.stringify v ++ "," ++ stringifyFields (f :: rest)

end

/-- Drop JSON whitespace from the front of the input. -/
def skipWs : List Char → List Char
  | c :: rest =>
      if c = ' ' || c = '\n' || c = '\t' || c = '\r' then skipWs rest else c :: rest
  | [] => []

/-- Consume the characters of a JSON string after its opening quote,
returning the decoded string and the input after the closing quote. -/
def parseStringChars : List Char → Option (String × List Char)
  | [] => none
  | c :: rest =>
      if c = '"' then some ("", rest)
      else if c = '\\' then
        match rest with
        | [] => none
        | e :: rest2 =>
            let dec : Option Char :=
              if e = '"' then some '"'
              else if e = '\\' then some '\\'
              else if e = '/' then some '/'
              else if e = 'n' then some '\n'
              else if e = 't' then some '\t'
              else if e = 'r' then some '\r'
              else none
            match dec with
            | some d =>
                (parseStringChars rest2).map fun sr => (String.singleton d ++ sr.1, sr.2)
            | none => none
      else (parseStringChars rest).map fun sr => (String.singleton c ++ sr.1, sr.2)

/-- Split the longest run of leading decimal digits from the input. -/
def takeDigits : List Char → List Char × List Char
  | [] => ([], [])
  | c :: rest =>
      if c.isDigit then
        let p := takeDigits rest
        (c :: p.1, p.2)
      else ([], c :: rest)

/-- Numeric value of a list of decimal digits. -/
def digitsToNat (ds : List Char) : Nat :=
  ds.foldl (fun a c => a * 10 + (c.toNat - 48)) 0

/-- True when the input continues with a fractional or exponent part,
which the integer-valued number model does not represent. -/
def numberContinues : List Char → Bool
  | c :: _ => c = '.' || c = 'e' || c = 'E'
  | [] => false

/-- Parse a JSON number (integer-valued model). -/
def parseNumber : List Char → Option (Json × List Char)
  | '-' :: rest =>
      match takeDigits rest with
      | ([], _) => none
      | (ds, r) =>
          if numberContinues r then none
          else some (Json.num (-(Int.ofNat (digitsToNat ds))), r)
  | input =>
      match takeDigits input with
      | ([], _) => none
      | (ds, r) =>
          if numberContinues r then none
          else some (Json.num (Int.ofNat (digitsToNat ds)), r)

/-- Match an expected literal character sequence. -/
def dropLit : List Char → List Char → Option (List Char)
  | [], input => some input
  | c :: cs, d :: ds => if c = d then dropLit cs ds else none
  | _ :: _, [] => none

mutual

/-- Fuel-indexed recursive-descent parser for one JSON value. -/
def parseValue : Nat → List Char → Option (Json × List Char)
  | 0, _ => none
  | Nat.succ fuel, input =>
      match skipWs input with
      | [] => none
      | c :: rest =>
          if c = 'n' then (dropLit ['u', 'l', 'l'] rest).map fun r => (Json.null, r)
          else if c = 't' then (dropLit ['r', 'u', 'e'] rest).map fun r => (Json.bool true, r)
          else if c = 'f' then
            (dropLit ['a', 'l', 's', 'e'] rest).map fun r => (Json.bool false, r)
          else if c = '"' then (parseStringChars rest).map fun sr => (Json.str sr.1, sr.2)
          else if c = '[' then parseArrayBody fuel rest
          else if c = '\x7b' then parseObjectBody fuel rest
          else parseNumber (c :: rest)

/-- Parse an array body after the opening bracket. -/
def parseArrayBody : Nat → List Char → Option (Json × List Char)
  | 0, _ => none
  | Nat.succ fuel, input =>
      match skipWs input with
      | ']' :: rest => some (Json.arr [], rest)
      | other => parseArrayItems fuel other []

/-- Parse the comma-separated elements of a non-empty array. -/
def parseArrayItems : Nat → List Char → List Json → Option (Json × List Char)
  | 0, _, _ => none
  | Nat.succ fuel, input, acc =>
      match parseValue fuel input with
      | none => none
      | some (v, rest) =>
          match skipWs rest with
          | ',' :: rest2 => parseArrayItems fuel rest2 (acc ++ [v])
          | ']' :: rest2 => some (Json.arr (acc ++ [v]), rest2)
          | _ => none

/-- Parse an object body after the opening brace. -/
def parseObjectBody : Nat → List Char → Option (Json × List Char)
  | 0, _ => none
  | Nat.succ fuel, input =>
      match skipWs input with
      | '\x7d' :: rest => some (Json.obj [], rest)
      | other => parseObjectItems fuel other []

/-- Parse the comma-separated members of a non-empty object. -/
def parseObjectItems : Nat → List Char → List (String × Json) → Option (Json × List Char)
  | 0, _, _ => none
  | Nat.succ fuel, input, acc =>
      match skipWs input with
      | '"' :: rest =>
          match parseStringChars rest with
          | none => none
          | some (key, rest2) =>
              match skipWs rest2 with
              | ':' :: rest3 =>
                  match parseValue fuel rest3 with
                  | none => none
                  | some (v, rest4) =>
                      match skipWs rest4 with
                      | ',' :: rest5 => parseObjectItems fuel rest5 (acc ++ [(key, v)])
                      | '\x7d' :: rest5 => some (Json.obj (acc ++ [(key, v)]), rest5)
                      | _ => none
              | _ => none
      | _ => none

end

/-- JSON.parse: parse a whole string as one JSON value; `none` on invalid
input, in particular on the empty string. -/
def Json.parse (s : String) : Option Json :=
  match parseValue (3 * s.length + 3) s.toList with
  | some (v, rest) =>
      match skipWs rest with
      | [] => some v
      | _ => none
  | none => none

/-- An HTTP request as handed to the platform fetch. -/
structure HttpRequest where
  url : String
  method : String
  headers : List (String × String)
  body : Option String

/-- An HTTP response as observed through the platform fetch. -/
structure HttpResponse where
  status : Nat
  statusText : String
  body : String

/-- Response.ok: true exactly when the status is in the range 200-299. -/
def HttpResponse.ok (r : HttpResponse) : Bool :=
  200 ≤ r.status && r.status ≤ 299

/-- The single error kind of the client: either the thrown request failure
carrying status and status text (part_000 line 174), or the platform failure
of Response.json on a body that is not valid JSON. -/
inductive PaperlessError where
  | requestFailed (status : Nat) (statusText : String)
  | invalidJson

/-- The client configuration: the two private readonly fields set in the
constructor (part_000 lines 155-162) and never reassigned. -/
structure PaperlessClient where
  baseUrl : String
  token : String

/-- The single HTTP request issued by `PaperlessClient.request`
(part_000 lines 165-172): URL is baseUrl ++ path, the two literal headers,
and the body is `JSON.stringify(body)` when the optional body is truthy,
otherwise undefined. -/
def PaperlessClient.requestSent (c : PaperlessClient) (method path : String)
    (body : Option Json) : HttpRequest :=
  { url := c.baseUrl ++ path
    method := method
    headers := [("Authorization", "Token " ++ c.token), ("Content-Type", "application/json")]
    body :=
      match body with
      | some b => if jsTruthy b then some (Json.stringify b) else none
      | none => none }

/-- Response handling of `PaperlessClient.request` (part_000 lines 173-177):
throw `Request failed: status statusText` when the status is not ok,
otherwise return `response.json()`. -/
def PaperlessClient.handleResponse (resp : HttpResponse) : Except PaperlessError Json :=
  if resp.ok = false then
    Except.error (PaperlessError.requestFailed resp.status resp.statusText)
  else
    match Json.parse resp.body with
    | some v => Except.ok v
    | none => Except.error PaperlessError.invalidJson

/-- `PaperlessClient.request` (part_000 lines 164-178): the one request it
issues, paired with how it turns the response into a result. -/
def PaperlessClient.request (c : PaperlessClient) (method path : String)
    (body : Option Json) : HttpRequest × (HttpResponse → Except PaperlessError Json) :=
  (c.requestSent method path body, PaperlessClient.handleResponse)

/-- `await this.request<void>(...)`: the delete methods await the shared
request and discard its value. -/
def discardResult (p : HttpRequest × (HttpResponse → Except PaperlessError Json)) :
    HttpRequest × (HttpResponse → Except PaperlessError Unit) :=
  (p.1, fun resp => (p.2 resp).map fun _ => ())

def PaperlessClient.getDocuments (c : PaperlessClient) :
    HttpRequest × (HttpResponse → Except PaperlessError Json) :=
  c.request "GET" "/api/documents/" none

def PaperlessClient.getDocument (c : PaperlessClient) (id : Nat) :
    HttpRequest × (HttpResponse → Except PaperlessError Json) :=
  c.request "GET" ("/api/documents/" ++ toString id ++ "/") none

def PaperlessClient.createDocument (c : PaperlessClient) (document : Json) :
    HttpRequest × (HttpResponse → Except PaperlessError Json) :=
  c.request "POST" "/api/documents/" (some document)

def PaperlessClient.updateDocument (c : PaperlessClient) (id : Nat) (document : Json) :
    HttpRequest × (HttpResponse → Except PaperlessError Json) :=
  c.request "PATCH" ("/api/documents/" ++ toString id ++ "/") (some document)

def PaperlessClient.deleteDocument (c : PaperlessClient) (id : Nat) :
    HttpRequest × (HttpResponse → Except PaperlessError Unit) :=
  discardResult (c.request "DELETE" ("/api/documents/" ++ toString id ++ "/") none)

def PaperlessClient.getTags (c : PaperlessClient) :
    HttpRequest × (HttpResponse → Except PaperlessError Json) :=
  c.request "GET" "/api/tags/" none

def PaperlessClient.getTag (c : PaperlessClient) (id : Nat) :
    HttpRequest × (HttpResponse → Except PaperlessError Json) :=
  c.request "GET" ("/api/tags/" ++ toString id ++ "/") none

def PaperlessClient.createTag (c : PaperlessClient) (tag : Json) :
    HttpRequest × (HttpResponse → Except PaperlessError Json) :=
  c.request "POST" "/api/tags/" (some tag)

def PaperlessClient.updateTag (c : PaperlessClient) (id : Nat) (tag : Json) :
    HttpRequest × (HttpResponse → Except PaperlessError Json) :=
  c.request "PATCH" ("/api/tags/" ++ toString id ++ "/") (some tag)

def PaperlessClient.deleteTag (c : PaperlessClient) (id : Nat) :
    HttpRequest × (HttpResponse → Except PaperlessError Unit) :=
  discardResult (c.request "DELETE" ("/api/tags/" ++ toString id ++ "/") none)

def PaperlessClient.getCorrespondents (c : PaperlessClient) :
    HttpRequest × (HttpResponse → Except PaperlessError Json) :=
  c.request "GET" "/api/correspondents/" none

def PaperlessClient.getCorrespondent (c : PaperlessClient) (id : Nat) :
    HttpRequest × (HttpResponse → Except PaperlessError Json) :=
  c.request "GET" ("/api/correspondents/" ++ toString id ++ "/") none

def PaperlessClient.createCorrespondent (c : PaperlessClient) (correspondent : Json) :
    HttpRequest × (HttpResponse → Except PaperlessError Json) :=
  c.request "POST" "/api/correspondents/" (some correspondent)

def PaperlessClient.updateCorrespondent (c : PaperlessClient) (id : Nat) (correspondent : Json) :
    HttpRequest × (HttpResponse → Except PaperlessError Json) :=
  c.request "PATCH" ("/api/correspondents/" ++ toString id ++ "/") (some correspondent)

def PaperlessClient.deleteCorrespondent (c : PaperlessClient) (id : Nat) :
    HttpRequest × (HttpResponse → Except PaperlessError Unit) :=
  discardResult (c.request "DELETE" ("/api/correspondents/" ++ toString id ++ "/") none)

def PaperlessClient.getDocumentTypes (c : PaperlessClient) :
    HttpRequest × (HttpResponse → Except PaperlessError Json) :=
  c.request "GET" "/api/document_types/" none

def PaperlessClient.getDocumentType (c : PaperlessClient) (id : Nat) :
    HttpRequest × (HttpResponse → Except PaperlessError Json) :=
  c.request "GET" ("/api/document_types/" ++ toString id ++ "/") none

def PaperlessClient.createDocumentType (c : PaperlessClient) (documentType : Json) :
    HttpRequest × (HttpResponse → Except PaperlessError Json) :=
  c.request "POST" "/api/document_types/" (some documentType)

def PaperlessClient.updateDocumentType (c : PaperlessClient) (id : Nat) (documentType : Json) :
    HttpRequest × (HttpResponse → Except PaperlessError Json) :=
  c.request "PATCH" ("/api/document_types/" ++ toString id ++ "/") (some documentType)

def PaperlessClient.deleteDocumentType (c : PaperlessClient) (id : Nat) :
    HttpRequest × (HttpResponse → Except PaperlessError Unit) :=
  discardResult (c.request "DELETE" ("/api/document_types/" ++ toString id ++ "/") none)

def PaperlessClient.getCustomFields (c : PaperlessClient) :
    HttpRequest × (HttpResponse → Except PaperlessError Json) :=
  c.request "GET" "/api/custom_fields/" none

def PaperlessClient.getCustomField (c : PaperlessClient) (id : Nat) :
    HttpRequest × (HttpResponse → Except PaperlessError Json) :=
  c.request "GET" ("/api/custom_fields/" ++ toString id ++ "/") none

def PaperlessClient.createCustomField (c : PaperlessClient) (customField : Json) :
    HttpRequest × (HttpResponse → Except PaperlessError Json) :=
  c.request "POST" "/api/custom_fields/" (some customField)

def PaperlessClient.updateCustomField (c : PaperlessClient) (id : Nat) (customField : Json) :
    HttpRequest × (HttpResponse → Except PaperlessError Json) :=
  c.request "PATCH" ("/api/custom_fields/" ++ toString id ++ "/") (some customField)

def PaperlessClient.deleteCustomField (c : PaperlessClient) (id : Nat) :
    HttpRequest × (HttpResponse → Except PaperlessError Unit) :=
  discardResult (c.request "DELETE" ("/api/custom_fields/" ++ toString id ++ "/") none)

def PaperlessClient.getUsers (c : PaperlessClient) :
    HttpRequest × (HttpResponse → Except PaperlessError Json) :=
  c.request "GET" "/api/users/" none

def PaperlessClient.getUser (c : PaperlessClient) (id : Nat) :
    HttpRequest × (HttpResponse → Except PaperlessError Json) :=
  c.request "GET" ("/api/users/" ++ toString id ++ "/") none

def PaperlessClient.createUser (c : PaperlessClient) (user : Json) :
    HttpRequest × (HttpResponse → Except PaperlessError Json) :=
  c.request "POST" "/api/users/" (some user)

def PaperlessClient.updateUser (c : PaperlessClient) (id : Nat) (user : Json) :
    HttpRequest × (HttpResponse → Except PaperlessError Json) :=
  c.request "PATCH" ("/api/users/" ++ toString id ++ "/") (some user)

def PaperlessClient.deleteUser (c : PaperlessClient) (id : Nat) :
    HttpRequest × (HttpResponse → Except PaperlessError Unit) :=
  discardResult (c.request "DELETE" ("/api/users/" ++ toString id ++ "/") none)

def PaperlessClient.getGroups (c : PaperlessClient) :
    HttpRequest × (HttpResponse → Except PaperlessError Json) :=
  c.request "GET" "/api/groups/" none

def PaperlessClient.getGroup (c : PaperlessClient) (id : Nat) :
    HttpRequest × (HttpResponse → Except PaperlessError Json) :=
  c.request "GET" ("/api/groups/" ++ toString id ++ "/") none

def PaperlessClient.createGroup (c : PaperlessClient) (group : Json) :
    HttpRequest × (HttpResponse → Except PaperlessError Json) :=
  c.request "POST" "/api/groups/" (some group)

def PaperlessClient.updateGroup (c : PaperlessClient) (id : Nat) (group : Json) :
    HttpRequest × (HttpResponse → Except PaperlessError Json) :=
  c.request "PATCH" ("/api/groups/" ++ toString id ++ "/") (some group)

def PaperlessClient.deleteGroup (c : PaperlessClient) (id : Nat) :
    HttpRequest × (HttpResponse → Except PaperlessError Unit) :=
  discardResult (c.request "DELETE" ("/api/groups/" ++ toString id ++ "/") none)

def PaperlessClient.getShareLinks (c : PaperlessClient) :
    HttpRequest × (HttpResponse → Except PaperlessError Json) :=
  c.request "GET" "/api/share_links/" none

def PaperlessClient.getShareLink (c : PaperlessClient) (id : Nat) :
    HttpRequest × (HttpResponse → Except PaperlessError Json) :=
  c.request "GET" ("/api/share_links/" ++ toString id ++ "/") none

def PaperlessClient.createShareLink (c : PaperlessClient) (shareLink : Json) :
    HttpRequest × (HttpResponse → Except PaperlessError Json) :=
  c.request "POST" "/api/share_links/" (some shareLink)

def PaperlessClient.deleteShareLink (c : PaperlessClient) (id : Nat) :
    HttpRequest × (HttpResponse → Except PaperlessError Unit) :=
  discardResult (c.request "DELETE" ("/api/share_links/" ++ toString id ++ "/") none)

def PaperlessClient.getStoragePaths (c : PaperlessClient) :
    HttpRequest × (HttpResponse → Except PaperlessError Json) :=
  c.request "GET" "/api/storage_paths/" none

def PaperlessClient.getStoragePath (c : PaperlessClient) (id : Nat) :
    HttpRequest × (HttpResponse → Except PaperlessError Json) :=
  c.request "GET" ("/api/storage_paths/" ++ toString id ++ "/") none

def PaperlessClient.createStoragePath (c : PaperlessClient) (storagePath : Json) :
    HttpRequest × (HttpResponse → Except PaperlessError Json) :=
  c.request "POST" "/api/storage_paths/" (some storagePath)

def PaperlessClient.updateStoragePath (c : PaperlessClient) (id : Nat) (storagePath : Json) :
    HttpRequest × (HttpResponse → Except PaperlessError Json) :=
  c.request "PATCH" ("/api/storage_paths/" ++ toString id ++ "/") (some storagePath)

def PaperlessClient.deleteStoragePath (c : PaperlessClient) (id : Nat) :
    HttpRequest × (HttpResponse → Except PaperlessError Unit) :=
  discardResult (c.request "DELETE" ("/api/storage_paths/" ++ toString id ++ "/") none)

def PaperlessClient.getWorkflows (c : PaperlessClient) :
    HttpRequest × (HttpResponse → Except PaperlessError Json) :=
  c.request "GET" "/api/workflows/" none

def PaperlessClient.getWorkflow (c : PaperlessClient) (id : Nat) :
    HttpRequest × (HttpResponse → Except PaperlessError Json) :=
  c.request "GET" ("/api/workflows/" ++ toString id ++ "/") none

def PaperlessClient.createWorkflow (c : PaperlessClient) (workflow : Json) :
    HttpRequest × (HttpResponse → Except PaperlessError Json) :=
  c.request "POST" "/api/workflows/" (some workflow)

def PaperlessClient.updateWorkflow (c : PaperlessClient) (id : Nat) (workflow : Json) :
    HttpRequest × (HttpResponse → Except PaperlessError Json) :=
  c.request "PATCH" ("/api/workflows/" ++ toString id ++ "/") (some workflow)

def PaperlessClient.deleteWorkflow (c : PaperlessClient) (id : Nat) :
    HttpRequest × (HttpResponse → Except PaperlessError Unit) :=
  discardResult (c.request "DELETE" ("/api/workflows/" ++ toString id ++ "/") none)

/-- The ten resource kinds of the API surface. -/
inductive ResourceKind where
  | document | tag | correspondent | documentType | customField
  | user | group | shareLink | storagePath | workflow
deriving DecidableEq

/-- The five operation kinds of the uniform CRUD pattern. -/
inductive OpKind where
  | list | get | create | update | delete
deriving DecidableEq

/-- View a value-returning method as producing an optional JSON result
(`some` of the parsed body). -/
def valueCall (p : HttpRequest × (HttpResponse → Except PaperlessError Json)) :
    HttpRequest × (HttpResponse → Except PaperlessError (Option Json)) :=
  (p.1, fun resp => (p.2 resp).map some)

/-- View a void method as producing an optional JSON result
(`none`, the undefined value a Promise-of-void resolves with). -/
def voidCall (p : HttpRequest × (HttpResponse → Except PaperlessError Unit)) :
    HttpRequest × (HttpResponse → Except PaperlessError (Option Json)) :=
  (p.1, fun resp => (p.2 resp).map fun _ => none)

/-- The method table of PaperlessClient, indexed by resource kind and
operation kind: the request the method issues and its response handling,
or `none` when the class declares no such method. Partial records passed
to create/update are JSON values, as the source serializes them opaquely. -/
def PaperlessClient.opCall (c : PaperlessClient) (r : ResourceKind) (o : OpKind)
    (id : Nat) (b : Json) :
    Option (HttpRequest × (HttpResponse → Except PaperlessError (Option Json))) :=
  match r, o with
  | ResourceKind.document, OpKind.list => some (valueCall c.getDocuments)
  | ResourceKind.document, OpKind.get => some (valueCall (c.getDocument id))
  | ResourceKind.document, OpKind.create => some (valueCall (c.createDocument b))
  | ResourceKind.document, OpKind.update => some (valueCall (c.updateDocument id b))
  | ResourceKind.document, OpKind.delete => some (voidCall (c.deleteDocument id))
  | ResourceKind.tag, OpKind.list => some (valueCall c.getTags)
  | ResourceKind.tag, OpKind.get => some (valueCall (c.getTag id))
  | ResourceKind.tag, OpKind.create => some (valueCall (c.createTag b))
  | ResourceKind.tag, OpKind.update => some (valueCall (c.updateTag id b))
  | ResourceKind.tag, OpKind.delete => some (voidCall (c.deleteTag id))
  | ResourceKind.correspondent, OpKind.list => some (valueCall c.getCorrespondents)
  | ResourceKind.correspondent, OpKind.get => some (valueCall (c.getCorrespondent id))
  | ResourceKind.correspondent, OpKind.create => some (valueCall (c.createCorrespondent b))
  | ResourceKind.correspondent, OpKind.update => some (valueCall (c.updateCorrespondent id b))
  | ResourceKind.correspondent, OpKind.delete => some (voidCall (c.deleteCorrespondent id))
  | ResourceKind.documentType, OpKind.list => some (valueCall c.getDocumentTypes)
  | ResourceKind.documentType, OpKind.get => some (valueCall (c.getDocumentType id))
  | ResourceKind.documentType, OpKind.create => some (valueCall (c.createDocumentType b))
  | ResourceKind.documentType, OpKind.update => some (valueCall (c.updateDocumentType id b))
  | ResourceKind.documentType, OpKind.delete => some (voidCall (c.deleteDocumentType id))
  | ResourceKind.customField, OpKind.list => some (valueCall c.getCustomFields)
  | ResourceKind.customField, OpKind.get => some (valueCall (c.getCustomField id))
  | ResourceKind.customField, OpKind.create => some (valueCall (c.createCustomField b))
  | ResourceKind.customField, OpKind.update => some (valueCall (c.updateCustomField id b))
  | ResourceKind.customField, OpKind.delete => some (voidCall (c.deleteCustomField id))
  | ResourceKind.user, OpKind.list => some (valueCall c.getUsers)
  | ResourceKind.user, OpKind.get => some (valueCall (c.getUser id))
  | ResourceKind.user, OpKind.create => some (valueCall (c.createUser b))
  | ResourceKind.user, OpKind.update => some (valueCall (c.updateUser id b))
  | ResourceKind.user, OpKind.delete => some (voidCall (c.deleteUser id))
  | ResourceKind.group, OpKind.list => some (valueCall c.getGroups)
  | ResourceKind.group, OpKind.get => some (valueCall (c.getGroup id))
  | ResourceKind.group, OpKind.create => some (valueCall (c.createGroup b))
  | ResourceKind.group, OpKind.update => some (valueCall (c.updateGroup id b))
  | ResourceKind.group, OpKind.delete => some (voidCall (c.deleteGroup id))
  | ResourceKind.shareLink, OpKind.list => some (valueCall c.getShareLinks)
  | ResourceKind.shareLink, OpKind.get => some (valueCall (c.getShareLink id))
  | ResourceKind.shareLink, OpKind.create => some (valueCall (c.createShareLink b))
  | ResourceKind.shareLink, OpKind.update => none
  | ResourceKind.shareLink, OpKind.delete => some (voidCall (c.deleteShareLink id))
  | ResourceKind.storagePath, OpKind.list => some (valueCall c.getStoragePaths)
  | ResourceKind.storagePath, OpKind.get => some (valueCall (c.getStoragePath id))
  | ResourceKind.storagePath, OpKind.create => some (valueCall (c.createStoragePath b))
  | ResourceKind.storagePath, OpKind.update => some (valueCall (c.updateStoragePath id b))
  | ResourceKind.storagePath, OpKind.delete => some (voidCall (c.deleteStoragePath id))
  | ResourceKind.workflow, OpKind.list => some (valueCall c.getWorkflows)
  | ResourceKind.workflow, OpKind.get => some (valueCall (c.getWorkflow id))
  | ResourceKind.workflow, OpKind.create => some (valueCall (c.createWorkflow b))
  | ResourceKind.workflow, OpKind.update => some (valueCall (c.updateWorkflow id b))
  | ResourceKind.workflow, OpKind.delete => some (voidCall (c.deleteWorkflow id))

/-- The one request a method issues, or `none` when the method is absent. -/
def PaperlessClient.opRequest (c : PaperlessClient) (r : ResourceKind) (o : OpKind)
    (id : Nat) (b : Json) : Option HttpRequest :=
  (c.opCall r o id b).map Prod.fst

/-- The result a method produces from a given response, or `none` when the
method is absent. -/
def PaperlessClient.opResult (c : PaperlessClient) (r : ResourceKind) (o : OpKind)
    (id : Nat) (b : Json) (resp : HttpResponse) :
    Option (Except PaperlessError (Option Json)) :=
  (c.opCall r o id b).map fun p => p.2 resp

/-- The HTTP method the spec documents for each operation kind. -/
def specMethod : OpKind → String
  | OpKind.list => "GET"
  | OpKind.get => "GET"
  | OpKind.create => "POST"
  | OpKind.update => "PATCH"
  | OpKind.delete => "DELETE"

/-- Each resource kind's collection path, as written in the source methods. -/
def collectionPath : ResourceKind → String
  | ResourceKind.document => "/api/documents/"
  | ResourceKind.tag => "/api/tags/"
  | ResourceKind.correspondent => "/api/correspondents/"
  | ResourceKind.documentType => "/api/document_types/"
  | ResourceKind.customField => "/api/custom_fields/"
  | ResourceKind.user => "/api/users/"
  | ResourceKind.group => "/api/groups/"
  | ResourceKind.shareLink => "/api/share_links/"
  | ResourceKind.storagePath => "/api/storage_paths/"
  | ResourceKind.workflow => "/api/workflows/"

/-- The path an operation addresses: the collection path for list/create,
the item path for get/update/delete. -/
def opPath (r : ResourceKind) (o : OpKind) (id : Nat) : String :=
  match o with
  | OpKind.list => collectionPath r
  | OpKind.create => collectionPath r
  | _ => collectionPath r ++ toString id ++ "/"

/-- The optional body a method passes to the shared request routine. -/
def opBody : OpKind → Json → Option Json
  | OpKind.create, b => some b
  | OpKind.update, b => some b
  | _, _ => none

/-- The response handling of a method of the given operation kind: delete
methods discard the parsed value (resolving with undefined), the others
return it. -/
def opHandler : OpKind → HttpResponse → Except PaperlessError (Option Json)
  | OpKind.delete => fun resp =>
      ((PaperlessClient.handleResponse resp).map fun _ => ()).map fun _ => none
  | _ => fun resp => (PaperlessClient.handleResponse resp).map some

/-- A concrete client configuration used to instantiate the theorems. -/
def demoClient : PaperlessClient :=
  { baseUrl := "http://example.test", token := "tok" }

theorem opCall_shareLink_update (c : PaperlessClient) (id : Nat) (b : Json) :
    c.opCall ResourceKind.shareLink OpKind.update id b = none := rfl

theorem opCall_some (c : PaperlessClient) (r : ResourceKind) (o : OpKind) (id : Nat) (b : Json)
    (h : ¬(r = ResourceKind.shareLink ∧ o = OpKind.update)) :
    c.opCall r o id b =
      some (c.requestSent (specMethod o) (opPath r o id) (opBody o b), opHandler o) := by
  cases r <;> cases o <;> first
    | rfl
    | exact absurd ⟨rfl, rfl⟩ h

theorem opCall_inv (c : PaperlessClient) (r : ResourceKind) (o : OpKind) (id : Nat) (b : Json)
    (p : HttpRequest × (HttpResponse → Except PaperlessError (Option Json)))
    (h : c.opCall r o id b = some p) :
    ¬(r = ResourceKind.shareLink ∧ o = OpKind.update) ∧
      p = (c.requestSent (specMethod o) (opPath r o id) (opBody o b), opHandler o) := by
  by_cases hro : r = ResourceKind.shareLink ∧ o = OpKind.update
  · obtain ⟨h1, h2⟩ := hro
    subst h1
    subst h2
    rw [opCall_shareLink_update] at h
    simp at h
  · refine ⟨hro, ?_⟩
    rw [opCall_some c r o id b hro] at h
    exact (Option.some.inj h).symm

theorem opRequest_some (c : PaperlessClient) (r : ResourceKind) (o : OpKind) (id : Nat)
    (b : Json) (h : ¬(r = ResourceKind.shareLink ∧ o = OpKind.update)) :
    c.opRequest r o id b =
      some (c.requestSent (specMethod o) (opPath r o id) (opBody o b)) := by
  unfold PaperlessClient.opRequest
  rw [opCall_some c r o id b h]
  rfl

theorem opRequest_inv (c : PaperlessClient) (r : ResourceKind) (o : OpKind) (id : Nat)
    (b : Json) (req : HttpRequest) (h : c.opRequest r o id b = some req) :
    ¬(r = ResourceKind.shareLink ∧ o = OpKind.update) ∧
      req = c.requestSent (specMethod o) (opPath r o id) (opBody o b) := by
  unfold PaperlessClient.opRequest at h
  cases e : c.opCall r o id b with
  | none => rw [e] at h; simp at h
  | some p =>
      rw [e] at h
      simp at h
      obtain ⟨hro, hp⟩ := opCall_inv c r o id b p e
      refine ⟨hro, ?_⟩
      rw [← h, hp]

theorem opResult_some (c : PaperlessClient) (r : ResourceKind) (o : OpKind) (id : Nat)
    (b : Json) (resp : HttpResponse)
    (h : ¬(r = ResourceKind.shareLink ∧ o = OpKind.update)) :
    c.opResult r o id b resp = some (opHandler o resp) := by
  unfold PaperlessClient.opResult
  rw [opCall_some c r o id b h]
  rfl

theorem opResult_inv (c : PaperlessClient) (r : ResourceKind) (o : OpKind) (id : Nat)
    (b : Json) (resp : HttpResponse) (res : Except PaperlessError (Option Json))
    (h : c.opResult r o id b resp = some res) :
    ¬(r = ResourceKind.shareLink ∧ o = OpKind.update) ∧ res = opHandler o resp := by
  unfold PaperlessClient.opResult at h
  cases e : c.opCall r o id b with
  | none => rw [e] at h; simp at h
  | some p =>
      rw [e] at h
      simp at h
      obtain ⟨hro, hp⟩ := opCall_inv c r o id b p e
      refine ⟨hro, ?_⟩
      rw [← h, hp]

theorem opHandler_error (o : OpKind) (resp : HttpResponse) (hok : resp.ok = false) :
    opHandler o resp =
      Except.error (PaperlessError.requestFailed resp.status resp.statusText) := by
  cases o <;> simp [opHandler, PaperlessClient.handleResponse, hok, Except.map]

theorem opHandler_value (o : OpKind) (resp : HttpResponse) (v : Json)
    (ho : o ≠ OpKind.delete) (hok : resp.ok = true) (hp : Json.parse resp.body = some v) :
    opHandler o resp = Except.ok (some v) := by
  cases o <;> first
    | exact absurd rfl ho
    | simp [opHandler, PaperlessClient.handleResponse, hok, hp, Except.map]

/-- Claim C1, as stated, is false: the ShareLink resource kind exposes no
Update operation. At the explicit input (ShareLink, Update) the method table
has no entry, so no PATCH method exists for share links. -/
theorem c1_counterexample :
    demoClient.opRequest ResourceKind.shareLink OpKind.update 1 Json.null = none := rfl

/-- Claim C1 (amended): for every resource kind and operation kind other
than the pair (ShareLink, Update), the client exposes the operation, and it
follows the uniform pattern: its single request uses the documented HTTP
method for the operation kind and addresses baseUrl ++ collection path
(list/create) or baseUrl ++ item path (get/update/delete). -/
theorem c1_amended (c : PaperlessClient) (r : ResourceKind) (o : OpKind) (id : Nat) (b : Json)
    (h : ¬(r = ResourceKind.shareLink ∧ o = OpKind.update)) :
    c.opRequest r o id b =
        some (c.requestSent (specMethod o) (opPath r o id) (opBody o b)) ∧
      (c.requestSent (specMethod o) (opPath r o id) (opBody o b)).method = specMethod o ∧
      (c.requestSent (specMethod o) (opPath r o id) (opBody o b)).url =
        c.baseUrl ++ opPath r o id :=
  ⟨opRequest_some c r o id b h, rfl, rfl⟩

/-- Witness for the amended C1 at the concrete input (Tag, Update, id 5). -/
theorem c1_amended_witness :
    ¬(ResourceKind.tag = ResourceKind.shareLink ∧ OpKind.update = OpKind.update) ∧
      (demoClient.opRequest ResourceKind.tag OpKind.update 5 (Json.obj []) =
          some (demoClient.requestSent (specMethod OpKind.update)
            (opPath ResourceKind.tag OpKind.update 5) (opBody OpKind.update (Json.obj []))) ∧
        (demoClient.requestSent (specMethod OpKind.update)
            (opPath ResourceKind.tag OpKind.update 5)
            (opBody OpKind.update (Json.obj []))).method = specMethod OpKind.update ∧
        (demoClient.requestSent (specMethod OpKind.update)
            (opPath ResourceKind.tag OpKind.update 5)
            (opBody OpKind.update (Json.obj []))).url =
          demoClient.baseUrl ++ opPath ResourceKind.tag OpKind.update 5) :=
  ⟨by decide, c1_amended demoClient ResourceKind.tag OpKind.update 5 (Json.obj []) (by decide)⟩

/-- Claim C2: for every operation of every resource kind, a response whose
status is not in the success range makes the call fail with the request
failure carrying exactly that status and status text; the result is the
same for every response body, so the body is never parsed on failure. -/
theorem c2_nonsuccess_error (c : PaperlessClient) (r : ResourceKind) (o : OpKind)
    (id : Nat) (b : Json) (resp : HttpResponse) (res : Except PaperlessError (Option Json))
    (h : c.opResult r o id b resp = some res) (hok : resp.ok = false) :
    res = Except.error (PaperlessError.requestFailed resp.status resp.statusText) ∧
      ∀ s : String,
        c.opResult r o id b (HttpResponse.mk resp.status resp.statusText s) =
          some (Except.error (PaperlessError.requestFailed resp.status resp.statusText)) := by
  obtain ⟨hro, hres⟩ := opResult_inv c r o id b resp res h
  constructor
  · rw [hres]
    exact opHandler_error o resp hok
  · intro s
    have hok2 : (HttpResponse.mk resp.status resp.statusText s).ok = false := hok
    rw [opResult_some c r o id b (HttpResponse.mk resp.status resp.statusText s) hro,
      opHandler_error o (HttpResponse.mk resp.status resp.statusText s) hok2]

/-- Witness for C2: getDocument(5) against a 404 Not Found response fails
with the request failure carrying 404 and the status text, for any body. -/
theorem c2_nonsuccess_error_witness :
    demoClient.opResult ResourceKind.document OpKind.get 5 Json.null
        (HttpResponse.mk 404 "Not Found" "ignored") =
      some (Except.error (PaperlessError.requestFailed 404 "Not Found")) ∧
    (HttpResponse.mk 404 "Not Found" "ignored").ok = false :=
  ⟨(c2_nonsuccess_error demoClient ResourceKind.document OpKind.get 5 Json.null
      (HttpResponse.mk 404 "Not Found" "ignored")
      (Except.error (PaperlessError.requestFailed 404 "Not Found")) rfl rfl).2 "ignored",
   rfl⟩

/-- Claim C3: a success response's entire body is parsed as JSON by the
shared request routine and returned unmodified — any JSON value v is
accepted, no shape validation against the record types occurs — and every
exposed non-delete operation resolves with exactly that value (the delete
operations await the same routine and then discard the value, per the
spec's Delete contract). -/
theorem c3_success_parsed_unmodified (resp : HttpResponse) (v : Json)
    (hok : resp.ok = true) (hp : Json.parse resp.body = some v) :
    PaperlessClient.handleResponse resp = Except.ok v ∧
      ∀ (c : PaperlessClient) (r : ResourceKind) (o : OpKind) (id : Nat) (b : Json),
        o ≠ OpKind.delete → ¬(r = ResourceKind.shareLink ∧ o = OpKind.update) →
          c.opResult r o id b resp = some (Except.ok (some v)) := by
  have h1 : PaperlessClient.handleResponse resp = Except.ok v := by
    simp [PaperlessClient.handleResponse, hok, hp]
  refine ⟨h1, ?_⟩
  intro c r o id b ho hro
  rw [opResult_some c r o id b resp hro, opHandler_value o resp v ho hok hp]

/-- Witness for C3: getDocument(5) against 200 OK with body
`\x7b"id":5,"title":"Invoice"\x7d` resolves to exactly that object. -/
theorem c3_success_parsed_unmodified_witness :
    (HttpResponse.mk 200 "OK" "\x7b\"id\":5,\"title\":\"Invoice\"\x7d").ok = true ∧
      Json.parse "\x7b\"id\":5,\"title\":\"Invoice\"\x7d" =
        some (Json.obj [("id", Json.num 5), ("title", Json.str "Invoice")]) ∧
      demoClient.opResult ResourceKind.document OpKind.get 5 Json.null
          (HttpResponse.mk 200 "OK" "\x7b\"id\":5,\"title\":\"Invoice\"\x7d") =
        some (Except.ok (some (Json.obj [("id", Json.num 5), ("title", Json.str "Invoice")]))) :=
  ⟨rfl, rfl,
   (c3_success_parsed_unmodified
       (HttpResponse.mk 200 "OK" "\x7b\"id\":5,\"title\":\"Invoice\"\x7d")
       (Json.obj [("id", Json.num 5), ("title", Json.str "Invoice")]) rfl rfl).2
     demoClient ResourceKind.document OpKind.get 5 Json.null (by decide) (by decide)⟩

/-- Claim C4: for every client and every exposed operation, the issued
request's Authorization header is exactly the string `Token ` followed by
the configured token. -/
theorem c4_authorization_header (c : PaperlessClient) (r : ResourceKind) (o : OpKind)
    (id : Nat) (b : Json) (req : HttpRequest) (h : c.opRequest r o id b = some req) :
    req.headers.lookup "Authorization" = some ("Token " ++ c.token) := by
  obtain ⟨-, hreq⟩ := opRequest_inv c r o id b req h
  subst hreq
  rfl

/-- Witness for C4 at getTags on the demo client. -/
theorem c4_authorization_header_witness :
    demoClient.opRequest ResourceKind.tag OpKind.list 0 Json.null =
        some (demoClient.requestSent (specMethod OpKind.list)
          (opPath ResourceKind.tag OpKind.list 0) (opBody OpKind.list Json.null)) ∧
      (demoClient.requestSent (specMethod OpKind.list)
          (opPath ResourceKind.tag OpKind.list 0)
          (opBody OpKind.list Json.null)).headers.lookup "Authorization" =
        some ("Token " ++ demoClient.token) :=
  ⟨rfl,
   c4_authorization_header demoClient ResourceKind.tag OpKind.list 0 Json.null
     (demoClient.requestSent (specMethod OpKind.list)
       (opPath ResourceKind.tag OpKind.list 0) (opBody OpKind.list Json.null)) rfl⟩

/-- Claim C5: every exposed operation is embedded as exactly one HTTP
request (the method table pairs each call with a single request and no
follow-up, so no pagination cursor is ever followed), and that request uses
the documented method for the operation kind and the documented path:
baseUrl ++ collection path for list/create, baseUrl ++ item path for
get/update/delete. -/
theorem c5_single_request_documented (c : PaperlessClient) (r : ResourceKind) (o : OpKind)
    (id : Nat) (b : Json) (req : HttpRequest) (h : c.opRequest r o id b = some req) :
    req.method = specMethod o ∧ req.url = c.baseUrl ++ opPath r o id := by
  obtain ⟨-, hreq⟩ := opRequest_inv c r o id b req h
  subst hreq
  exact ⟨rfl, rfl⟩

/-- Witness for C5: deleteWorkflow(7) issues one DELETE to
/api/workflows/7/ on the demo client. -/
theorem c5_single_request_documented_witness :
    demoClient.opRequest ResourceKind.workflow OpKind.delete 7 Json.null =
        some (demoClient.requestSent (specMethod OpKind.delete)
          (opPath ResourceKind.workflow OpKind.delete 7) (opBody OpKind.delete Json.null)) ∧
      (demoClient.requestSent (specMethod OpKind.delete)
          (opPath ResourceKind.workflow OpKind.delete 7)
          (opBody OpKind.delete Json.null)).method = "DELETE" ∧
      (demoClient.requestSent (specMethod OpKind.delete)
          (opPath ResourceKind.workflow OpKind.delete 7)
          (opBody OpKind.delete Json.null)).url = "http://example.test/api/workflows/7/" :=
  ⟨rfl,
   by
    have h := c5_single_request_documented demoClient ResourceKind.workflow OpKind.delete 7
      Json.null (demoClient.requestSent (specMethod OpKind.delete)
        (opPath ResourceKind.workflow OpKind.delete 7) (opBody OpKind.delete Json.null)) rfl
    exact ⟨h.1, h.2.trans (by rfl)⟩⟩

/-- Claim C6 evaluated on the code: deleteTag(3) does issue DELETE
/api/tags/3/, and a 404 response does make the call fail carrying status
404; but on a 204 No Content response (whose body is empty) the call does
not resolve — the shared routine calls Response.json on the empty body, so
the call fails with a JSON parse error instead of resolving to no value. -/
theorem c6_delete_tag_behavior :
    demoClient.opRequest ResourceKind.tag OpKind.delete 3 Json.null =
        some (HttpRequest.mk "http://example.test/api/tags/3/" "DELETE"
          [("Authorization", "Token tok"), ("Content-Type", "application/json")] none) ∧
      demoClient.opResult ResourceKind.tag OpKind.delete 3 Json.null
          (HttpResponse.mk 204 "No Content" "") =
        some (Except.error PaperlessError.invalidJson) ∧
      demoClient.opResult ResourceKind.tag OpKind.delete 3 Json.null
          (HttpResponse.mk 404 "Not Found" "") =
        some (Except.error (PaperlessError.requestFailed 404 "Not Found")) :=
  ⟨rfl, rfl, rfl⟩

/-- Claim C7: every exposed operation's request carries exactly the two
headers the source writes — the Authorization header with the token and the
JSON Content-Type header — and no others. -/
theorem c7_exactly_two_headers (c : PaperlessClient) (r : ResourceKind) (o : OpKind)
    (id : Nat) (b : Json) (req : HttpRequest) (h : c.opRequest r o id b = some req) :
    req.headers =
        [("Authorization", "Token " ++ c.token), ("Content-Type", "application/json")] ∧
      req.headers.length = 2 := by
  obtain ⟨-, hreq⟩ := opRequest_inv c r o id b req h
  subst hreq
  exact ⟨rfl, rfl⟩

/-- Witness for C7 at getUsers on the demo client. -/
theorem c7_exactly_two_headers_witness :
    demoClient.opRequest ResourceKind.user OpKind.list 0 Json.null =
        some (demoClient.requestSent (specMethod OpKind.list)
          (opPath ResourceKind.user OpKind.list 0) (opBody OpKind.list Json.null)) ∧
      (demoClient.requestSent (specMethod OpKind.list)
          (opPath ResourceKind.user OpKind.list 0) (opBody OpKind.list Json.null)).headers =
        [("Authorization", "Token tok"), ("Content-Type", "application/json")] :=
  ⟨rfl,
   by
    have h := c7_exactly_two_headers demoClient ResourceKind.user OpKind.list 0 Json.null
      (demoClient.requestSent (specMethod OpKind.list)
        (opPath ResourceKind.user OpKind.list 0) (opBody OpKind.list Json.null)) rfl
    exact h.1.trans (by rfl)⟩

/-- Claim C8: the client is exactly its base URL and token (structure eta:
no further state exists), and any two clients agreeing on those two fields
behave identically on every operation, both in the request issued and in
the handling of every response — the fields are readonly and never
reassigned, so configuration is fixed for the lifetime of the instance. -/
theorem c8_client_immutable_config (c : PaperlessClient) :
    c = PaperlessClient.mk c.baseUrl c.token ∧
      ∀ c' : PaperlessClient, c'.baseUrl = c.baseUrl → c'.token = c.token →
        ∀ (r : ResourceKind) (o : OpKind) (id : Nat) (b : Json),
          c'.opRequest r o id b = c.opRequest r o id b ∧
            ∀ resp : HttpResponse, c'.opResult r o id b resp = c.opResult r o id b resp := by
  constructor
  · cases c
    rfl
  · intro c' hb ht r o id b
    have hcc : c' = c := by
      cases c
      cases c'
      simp only [PaperlessClient.mk.injEq]
      exact ⟨hb, ht⟩
    rw [hcc]
    exact ⟨rfl, fun _ => rfl⟩

/-- Witness for C8: a client built from the demo client's own fields is the
demo client and issues the identical getTags request. -/
theorem c8_client_immutable_config_witness :
    demoClient = PaperlessClient.mk demoClient.baseUrl demoClient.token ∧
      (PaperlessClient.mk "http://example.test" "tok").opRequest
          ResourceKind.tag OpKind.list 0 Json.null =
        demoClient.opRequest ResourceKind.tag OpKind.list 0 Json.null :=
  ⟨(c8_client_immutable_config demoClient).1,
   ((c8_client_immutable_config demoClient).2
       (PaperlessClient.mk "http://example.test" "tok") rfl rfl
       ResourceKind.tag OpKind.list 0 Json.null).1⟩

/-- Claim C9: every list, get-by-id and delete call issues its request with
no body (undefined), while the JSON Content-Type header is still set. -/
theorem c9_no_body_on_get_delete (c : PaperlessClient) (r : ResourceKind) (o : OpKind)
    (id : Nat) (b : Json) (req : HttpRequest)
    (ho : o = OpKind.list ∨ o = OpKind.get ∨ o = OpKind.delete)
    (h : c.opRequest r o id b = some req) :
    req.body = none ∧ req.headers.lookup "Content-Type" = some "application/json" := by
  obtain ⟨-, hreq⟩ := opRequest_inv c r o id b req h
  subst hreq
  rcases ho with ho | ho | ho <;> subst ho <;> exact ⟨rfl, rfl⟩

/-- Witness for C9 at deleteGroup(9) on the demo client. -/
theorem c9_no_body_on_get_delete_witness :
    demoClient.opRequest ResourceKind.group OpKind.delete 9 Json.null =
        some (demoClient.requestSent (specMethod OpKind.delete)
          (opPath ResourceKind.group OpKind.delete 9) (opBody OpKind.delete Json.null)) ∧
      (demoClient.requestSent (specMethod OpKind.delete)
          (opPath ResourceKind.group OpKind.delete 9) (opBody OpKind.delete Json.null)).body =
        none ∧
      (demoClient.requestSent (specMethod OpKind.delete)
          (opPath ResourceKind.group OpKind.delete 9)
          (opBody OpKind.delete Json.null)).headers.lookup "Content-Type" =
        some "application/json" :=
  ⟨rfl,
   by
    have h := c9_no_body_on_get_delete demoClient ResourceKind.group OpKind.delete 9 Json.null
      (demoClient.requestSent (specMethod OpKind.delete)
        (opPath ResourceKind.group OpKind.delete 9) (opBody OpKind.delete Json.null))
      (Or.inr (Or.inr rfl)) rfl
    exact ⟨h.1, h.2⟩⟩

/-- Claim C10: the configured token influences only the Authorization
header. For any two clients with the same base URL and any exposed
operation called with identical arguments, the two issued requests agree on
URL, method, body, and every header other than Authorization; in
particular the token never reaches the URL or the body. -/
theorem c10_token_only_authorization (c1 c2 : PaperlessClient)
    (hb : c1.baseUrl = c2.baseUrl) (r : ResourceKind) (o : OpKind) (id : Nat) (b : Json)
    (req1 req2 : HttpRequest)
    (h1 : c1.opRequest r o id b = some req1) (h2 : c2.opRequest r o id b = some req2) :
    req1.url = req2.url ∧ req1.method = req2.method ∧ req1.body = req2.body ∧
      ∀ k : String, k ≠ "Authorization" →
        req1.headers.lookup k = req2.headers.lookup k := by
  obtain ⟨-, hr1⟩ := opRequest_inv c1 r o id b req1 h1
  obtain ⟨-, hr2⟩ := opRequest_inv c2 r o id b req2 h2
  subst hr1
  subst hr2
  refine ⟨?_, rfl, rfl, ?_⟩
  · show c1.baseUrl ++ opPath r o id = c2.baseUrl ++ opPath r o id
    rw [hb]
  · intro k hk
    have hbk : (k == "Authorization") = false := beq_eq_false_iff_ne.mpr hk
    show List.lookup k
        [("Authorization", "Token " ++ c1.token), ("Content-Type", "application/json")] =
      List.lookup k
        [("Authorization", "Token " ++ c2.token), ("Content-Type", "application/json")]
    simp [List.lookup, hbk]

/-- Witness for C10: two clients differing only in token issue
createDocument requests agreeing on URL, body, and Content-Type header. -/
theorem c10_token_only_authorization_witness :
    demoClient.opRequest ResourceKind.document OpKind.create 0 (Json.obj []) =
        some (demoClient.requestSent (specMethod OpKind.create)
          (opPath ResourceKind.document OpKind.create 0)
          (opBody OpKind.create (Json.obj []))) ∧
      (demoClient.requestSent (specMethod OpKind.create)
          (opPath ResourceKind.document OpKind.create 0)
          (opBody OpKind.create (Json.obj []))).url =
        ((PaperlessClient.mk "http://example.test" "tok2").requestSent
          (specMethod OpKind.create) (opPath ResourceKind.document OpKind.create 0)
          (opBody OpKind.create (Json.obj []))).url ∧
      (demoClient.requestSent (specMethod OpKind.create)
          (opPath ResourceKind.document OpKind.create 0)
          (opBody OpKind.create (Json.obj []))).body =
        ((PaperlessClient.mk "http://example.test" "tok2").requestSent
          (specMethod OpKind.create) (opPath ResourceKind.document OpKind.create 0)
          (opBody OpKind.create (Json.obj []))).body ∧
      (demoClient.requestSent (specMethod OpKind.create)
          (opPath ResourceKind.document OpKind.create 0)
          (opBody OpKind.create (Json.obj []))).headers.lookup "Content-Type" =
        ((PaperlessClient.mk "http://example.test" "tok2").requestSent
          (specMethod OpKind.create) (opPath ResourceKind.document OpKind.create 0)
          (opBody OpKind.create (Json.obj []))).headers.lookup "Content-Type" :=
  ⟨rfl,
   by
    have h := c10_token_only_authorization demoClient
      (PaperlessClient.mk "http://example.test" "tok2") rfl
      ResourceKind.document OpKind.create 0 (Json.obj [])
      (demoClient.requestSent (specMethod OpKind.create)
        (opPath ResourceKind.document OpKind.create 0) (opBody OpKind.create (Json.obj [])))
      ((PaperlessClient.mk "http://example.test" "tok2").requestSent
        (specMethod OpKind.create) (opPath ResourceKind.document OpKind.create 0)
        (opBody OpKind.create (Json.obj []))) rfl rfl
    exact ⟨h.1, h.2.2.1, h.2.2.2 "Content-Type" (by decide)⟩⟩
